import Mathlib

/-!
Verification of the platform-configuration layer of sil-q
(src/h-config.h, src/h-system.h, src/h-define.h).

The preprocessor logic is shallowly embedded: compiler-provided signals
become fields of `BuildEnv`, the flag derivation of h-config.h becomes
`hConfig`, the toolchain demotion of h-system.h becomes `hSystem`, the
define-if-absent fallback constants of h-define.h become `hDefine`, and the
untyped numeric/character macros become functions on `Int` / `Nat`.
-/

/-- Compiler/toolchain identity signals visible before h-config.h runs.
`win32` is the signal named with a leading underscore in the source,
`win32Alt` the one without; `windowsPre` / `pathSepPre` model a
pre-existing definition of WINDOWS / PATH_SEP (the latter may be set by an
earlier include); `haveConfigH` is HAVE_CONFIG_H; `mscVer` is the
non-POSIX-compiler signal checked in h-system.h. -/
structure BuildEnv where
  win32 : Bool
  win32Alt : Bool
  windowsPre : Bool
  haveConfigH : Bool
  mscVer : Bool
  pathSepPre : Option String
deriving Repr, DecidableEq

/-- The flags this layer derives: whether WINDOWS and SET_UID are defined,
the value PATH_SEP currently expands to (none = undefined), and whether
HAVE_USLEEP is defined. -/
structure ConfigState where
  windows : Bool
  set_uid : Bool
  path_sep : Option String
  have_usleep : Bool
deriving Repr, DecidableEq

/-- h-config.h: `#if defined(_WIN32) || defined(WIN32)` then
`#ifndef WINDOWS / #define WINDOWS` (check-then-set, so a pre-existing
definition is respected and otherwise the flag is raised). -/
def classifyWINDOWS (e : BuildEnv) : Bool :=
  if e.win32 || e.win32Alt then true else e.windowsPre

/-- h-config.h: `#if !defined(WINDOWS) / #define SET_UID`. -/
def deriveSET_UID (windows : Bool) : Bool :=
  !windows

/-- h-config.h: `#undef PATH_SEP` followed by `#define PATH_SEP "/"` -
the Unix default is installed regardless of any previous value. -/
def pathSepDefaultStep : Option String → Option String :=
  fun _ => some "/"

/-- h-config.h: `#if defined(WINDOWS)` then `#undef PATH_SEP` and
`#define PATH_SEP "\\"` - an unconditional overwrite, not a
check-before-set. -/
def pathSepWindowsStep (windows : Bool) (cur : Option String) : Option String :=
  if windows then some "\\" else cur

/-- h-config.h: `#if defined(SET_UID) && !defined(HAVE_CONFIG_H)` then
`#define HAVE_USLEEP`. -/
def deriveHAVE_USLEEP (set_uid haveConfigH : Bool) : Bool :=
  set_uid && !haveConfigH

/-- The whole of h-config.h: derive WINDOWS, SET_UID, PATH_SEP and
HAVE_USLEEP from the build environment, in source order. -/
def hConfig (e : BuildEnv) : ConfigState :=
  let w := classifyWINDOWS e
  let su := deriveSET_UID w
  { windows := w
    set_uid := su
    path_sep := pathSepWindowsStep w (pathSepDefaultStep e.pathSepPre)
    have_usleep := deriveHAVE_USLEEP su e.haveConfigH }

/-- h-system.h, the flag-changing part: inside `#ifdef SET_UID`, the
`#else` branch of `#ifndef _MSC_VER` runs `#ifndef WINDOWS /
#define WINDOWS` and `#undef SET_UID`. Header inclusion itself has no
effect on the flags and is not modelled. -/
def hSystem (e : BuildEnv) (s : ConfigState) : ConfigState :=
  if s.set_uid then
    if e.mscVer then
      { s with windows := true, set_uid := false }
    else s
  else s

/-- The fcntl/stdio constants h-define.h supplies fallbacks for; `none`
means the hosting environment left the symbol undefined. -/
structure FcntlConsts where
  SEEK_SET : Option Int
  SEEK_CUR : Option Int
  SEEK_END : Option Int
  F_UNLCK : Option Int
  F_RDLCK : Option Int
  F_WRLCK : Option Int
deriving Repr, DecidableEq

/-- h-define.h: `#ifndef NAME / #define NAME v` - keep a pre-existing
definition, otherwise install the fallback value. -/
def defineIfAbsent : Option Int → Int → Option Int
  | some v, _ => some v
  | none, v => some v

/-- h-define.h lines 20-41: the six guarded fallback definitions, with the
documented values 0/1/2 for the seek modes and 0/1/2 for the lock modes. -/
def hDefine (c : FcntlConsts) : FcntlConsts where
  SEEK_SET := defineIfAbsent c.SEEK_SET 0
  SEEK_CUR := defineIfAbsent c.SEEK_CUR 1
  SEEK_END := defineIfAbsent c.SEEK_END 2
  F_UNLCK := defineIfAbsent c.F_UNLCK 0
  F_RDLCK := defineIfAbsent c.F_RDLCK 1
  F_WRLCK := defineIfAbsent c.F_WRLCK 2

/-- h-define.h: `ABS(a)` = `(((a) < 0) ? (-(a)) : (a))`. -/
def ABS (a : Int) : Int :=
  if a < 0 then -a else a

/-- h-define.h: `SGN(a)` = `(((a) < 0) ? (-1) : ((a) != 0))`; the C
comparison `(a) != 0` yields the int 1 or 0. -/
def SGN (a : Int) : Int :=
  if a < 0 then -1 else if a ≠ 0 then 1 else 0

/-- h-define.h: `ORDERED(a, b, c)` =
`((((a) <= (b)) && ((b) <= (c))) || (((c) <= (b)) && ((b) <= (a))))`. -/
def ORDERED (a b c : Int) : Bool :=
  (decide (a ≤ b) && decide (b ≤ c)) || (decide (c ≤ b) && decide (b ≤ a))

/-- h-define.h: `A2I(X)` = `((X) - 'a')`, on ASCII codes (97 = lowercase a). -/
def A2I (x : Int) : Int :=
  x - 97

/-- h-define.h: `I2A(X)` = `((X) + 'a')`. -/
def I2A (x : Int) : Int :=
  x + 97

/-- h-define.h: `KTRL(X)` = `((X)&0x1F)`, on nonnegative character codes. -/
def KTRL (x : Nat) : Nat :=
  x &&& 0x1F

/-- h-define.h: `UN_KTRL(X)` = `((X) + 64)`. -/
def UN_KTRL (x : Nat) : Nat :=
  x + 64

theorem defineIfAbsent_eq_getD (o : Option Int) (v : Int) :
    defineIfAbsent o v = some (o.getD v) := by
  cases o <;> rfl

theorem defineIfAbsent_idem (o : Option Int) (v : Int) :
    defineIfAbsent (defineIfAbsent o v) v = defineIfAbsent o v := by
  cases o <;> rfl

/-- C1: for every build environment, SET_UID is defined iff WINDOWS is not,
both after h-config.h runs and after the h-system.h toolchain demotion. -/
theorem set_uid_negation_of_windows (e : BuildEnv) :
    (hConfig e).set_uid = !(hConfig e).windows ∧
    (hSystem e (hConfig e)).set_uid = !(hSystem e (hConfig e)).windows := by
  refine ⟨rfl, ?_⟩
  simp only [hConfig, hSystem, deriveSET_UID]
  cases classifyWINDOWS e <;> cases e.mscVer <;> simp

/-- C2: PATH_SEP resolves to exactly one value, the backslash string when
WINDOWS is set and the slash string otherwise; the slash default is
installed first regardless of any previous value, and the WINDOWS case
overwrites unconditionally rather than checking before setting. -/
theorem path_sep_resolution (e : BuildEnv) :
    (hConfig e).path_sep = some (if (hConfig e).windows then "\\" else "/") ∧
    (∀ p : Option String, pathSepDefaultStep p = some "/") ∧
    (∀ cur : Option String, pathSepWindowsStep true cur = some "\\") ∧
    (∀ p : Option String,
      (hConfig { e with pathSepPre := p }).path_sep = (hConfig e).path_sep) := by
  refine ⟨?_, fun p => rfl, fun cur => rfl, fun p => rfl⟩
  simp only [hConfig, pathSepWindowsStep, pathSepDefaultStep]
  cases classifyWINDOWS e <;> simp

/-- C3: h-config.h defines HAVE_USLEEP exactly when SET_UID is defined and
HAVE_CONFIG_H is absent; equivalently it is the conjunction of the
multi-user flag with the negation of the external-configuration signal. -/
theorem have_usleep_derivation (e : BuildEnv) :
    (hConfig e).have_usleep = ((hConfig e).set_uid && !e.haveConfigH) ∧
    ((hConfig e).have_usleep = true ↔
      (hConfig e).set_uid = true ∧ e.haveConfigH = false) := by
  refine ⟨rfl, ?_⟩
  simp only [hConfig, deriveHAVE_USLEEP]
  cases deriveSET_UID (classifyWINDOWS e) <;> cases e.haveConfigH <;> simp

/-- C4: each fallback constant keeps a pre-existing definition and
otherwise takes its documented value (SEEK 0/1/2, lock 0/1/2), and
re-resolving a second time changes nothing. -/
theorem fallback_constants_resolution (c : FcntlConsts) :
    (hDefine c).SEEK_SET = some (c.SEEK_SET.getD 0) ∧
    (hDefine c).SEEK_CUR = some (c.SEEK_CUR.getD 1) ∧
    (hDefine c).SEEK_END = some (c.SEEK_END.getD 2) ∧
    (hDefine c).F_UNLCK = some (c.F_UNLCK.getD 0) ∧
    (hDefine c).F_RDLCK = some (c.F_RDLCK.getD 1) ∧
    (hDefine c).F_WRLCK = some (c.F_WRLCK.getD 2) ∧
    hDefine (hDefine c) = hDefine c := by
  refine ⟨?_, ?_, ?_, ?_, ?_, ?_, ?_⟩ <;>
    simp [hDefine, defineIfAbsent_eq_getD, defineIfAbsent_idem]

/-- C5: when SET_UID is set but the toolchain signal of the recognized
non-POSIX compiler is present, h-system.h demotes the classification:
afterwards WINDOWS is defined and SET_UID is not. -/
theorem msc_ver_demotion (e : BuildEnv) (s : ConfigState)
    (h1 : s.set_uid = true) (h2 : e.mscVer = true) :
    (hSystem e s).windows = true ∧ (hSystem e s).set_uid = false := by
  simp [hSystem, h1, h2]

/-- Witness for C5: a concrete Unix-classified state under the non-POSIX
compiler is demoted to the Windows family. -/
theorem msc_ver_demotion_witness :
    (hSystem ⟨false, false, false, false, true, none⟩
      ⟨false, true, some "/", true⟩).windows = true ∧
    (hSystem ⟨false, false, false, false, true, none⟩
      ⟨false, true, some "/", true⟩).set_uid = false :=
  msc_ver_demotion ⟨false, false, false, false, true, none⟩
    ⟨false, true, some "/", true⟩ rfl rfl

/-- C6: ORDERED is true iff the middle argument lies between the outer two
inclusively, in either direction; in particular it holds on (1,2,3),
(3,2,1) and (2,2,2) and fails on (1,3,2). -/
theorem ordered_between_spec :
    (∀ a b c : Int, ORDERED a b c = true ↔ (a ≤ b ∧ b ≤ c) ∨ (c ≤ b ∧ b ≤ a)) ∧
    ORDERED 1 2 3 = true ∧ ORDERED 3 2 1 = true ∧
    ORDERED 1 3 2 = false ∧ ORDERED 2 2 2 = true := by
  refine ⟨fun a b c => ?_, by decide, by decide, by decide, by decide⟩
  simp [ORDERED]

/-- C7: SGN returns -1 on negatives, 1 on nonzero nonnegatives and 0 at
zero; ABS negates negatives and fixes the rest; with the spec's sample
values. -/
theorem sgn_abs_branch_spec :
    (∀ a : Int, a < 0 → SGN a = -1) ∧
    (∀ a : Int, ¬a < 0 → a ≠ 0 → SGN a = 1) ∧
    SGN 0 = 0 ∧
    (∀ a : Int, a < 0 → ABS a = -a) ∧
    (∀ a : Int, ¬a < 0 → ABS a = a) ∧
    SGN (-5) = -1 ∧ SGN 7 = 1 ∧ ABS (-3) = 3 ∧ ABS 3 = 3 := by
  refine ⟨fun a h => ?_, fun a h h0 => ?_, by decide, fun a h => ?_,
    fun a h => ?_, by decide, by decide, by decide, by decide⟩ <;>
    simp [SGN, ABS, h] <;> omega

/-- Witness for C7: the branch descriptions evaluated at concrete inputs. -/
theorem sgn_abs_branch_spec_witness :
    SGN (-2) = -1 ∧ SGN 5 = 1 ∧ ABS (-4) = -(-4) ∧ ABS 6 = 6 :=
  ⟨sgn_abs_branch_spec.1 (-2) (by decide),
   sgn_abs_branch_spec.2.1 5 (by decide) (by decide),
   sgn_abs_branch_spec.2.2.2.1 (-4) (by decide),
   sgn_abs_branch_spec.2.2.2.2.1 6 (by decide)⟩

/-- C8: A2I sends the codes of the letters a and c to 0 and 2, and A2I/I2A
round-trip over the 26-letter domain (codes 97-122, indices 0-25). -/
theorem letter_conversion_roundtrip :
    A2I 97 = 0 ∧ A2I 99 = 2 ∧
    (∀ x : Int, 97 ≤ x → x ≤ 122 → I2A (A2I x) = x) ∧
    (∀ i : Int, 0 ≤ i → i ≤ 25 → A2I (I2A i) = i) := by
  refine ⟨by decide, by decide, fun x h1 h2 => ?_, fun i h1 h2 => ?_⟩
  all_goals simp [A2I, I2A]

/-- Witness for C8: the round trips at the codes of the letters a and z. -/
theorem letter_conversion_roundtrip_witness :
    I2A (A2I 97) = 97 ∧ A2I (I2A 25) = 25 :=
  ⟨letter_conversion_roundtrip.2.2.1 97 (by decide) (by decide),
   letter_conversion_roundtrip.2.2.2 25 (by decide) (by decide)⟩

/-- C9: KTRL at the code of the letter A gives 1, the conventional
control-A value, and UN_KTRL inverts KTRL on the control range of codes
64 through 95. -/
theorem ktrl_roundtrip :
    KTRL 65 = 1 ∧
    (∀ c : Nat, 64 ≤ c → c ≤ 95 → UN_KTRL (KTRL c) = c) := by
  refine ⟨by decide, fun c h1 h2 => ?_⟩
  interval_cases c <;> decide

/-- Witness for C9: the round trip at the code of the letter A. -/
theorem ktrl_roundtrip_witness : UN_KTRL (KTRL 65) = 65 :=
  ktrl_roundtrip.2 65 (by decide) (by decide)

/-- C10: the sign extractor and the absolute value decompose every integer
exactly: SGN a * ABS a = a. -/
theorem sgn_mul_abs_eq (a : Int) : SGN a * ABS a = a := by
  simp only [SGN, ABS]
  split_ifs <;> omega
